import Mathlib

/-!
Shallow embedding of the QualityControl medical-audit services, covering the
Audit Decision Pipeline, the BERT medical-text model, the XGBoost fraud model,
the LSTM treatment-pattern model, the compliance auditor, the context manager,
the case validator, and the base model data classes, together with theorems
settling the specification claims about them.

Conventions: Python floats are modelled as rationals (ℚ); Python dicts with
string keys as association lists; a Python function that may raise is modelled
with Except.  Division is ℚ division; wherever a theorem relies on a quotient
we keep the divisor positive via hypotheses that match the code's defaults.
-/

namespace QualityControl

/-- Python dict.get k 0 over a string-keyed probability map. -/
def dictGet (m : List (String × ℚ)) (k : String) : ℚ :=
  (m.lookup k).getD 0

/-- Medical entity emitted by BERTMedicalModel: a dict with keys type, text and
a constant confidence of 0.9. -/
structure Entity where
  type : String
  text : String
  confidence : ℚ
deriving DecidableEq, Repr

/-- Count of entities whose type is DISEASE or SYMPTOM, as in the generator
expression inside BERTMedicalModel._calculate_risk_score. -/
def high_risk_entity_count (entities : List Entity) : ℕ :=
  (entities.filter (fun e => e.type == "DISEASE" || e.type == "SYMPTOM")).length

/-- BERTMedicalModel._calculate_risk_score: base risk from three classification
probabilities plus a capped entity contribution, clamped to at most 1. -/
def calculate_risk_score (classification : List (String × ℚ))
    (entities : List Entity) : ℚ :=
  let base_risk :=
    dictGet classification "unnecessary_procedure" * (4/10)
      + dictGet classification "experimental_treatment" * (3/10)
      + dictGet classification "cost_concern" * (2/10)
  let entity_risk := min ((high_risk_entity_count entities : ℚ) * (5/100)) (3/10)
  min (base_risk + entity_risk) 1

/-- XGBoostFraudModel default low-risk threshold (config key absent). -/
def threshold_low : ℚ := 3/10

/-- XGBoostFraudModel default medium-risk threshold (config key absent). -/
def threshold_medium : ℚ := 6/10

/-- XGBoostFraudModel default high-risk threshold (config key absent). -/
def threshold_high : ℚ := 8/10

/-- XGBoostFraudModel._determine_risk_level with the default thresholds. -/
def determine_risk_level (probability : ℚ) : String :=
  if threshold_high ≤ probability then "high"
  else if threshold_medium ≤ probability then "medium"
  else if threshold_low ≤ probability then "low"
  else "minimal"

/-- Severity rank of a fraud risk level, for stating monotonicity:
minimal < low < medium < high. -/
def riskLevelSeverity (level : String) : ℕ :=
  if level = "minimal" then 0
  else if level = "low" then 1
  else if level = "medium" then 2
  else 3

/-- ComplianceAuditor._audit_compliance_level, final step: derive the overall
compliance_status from the accumulated violations_found list. -/
def compliance_status (violations_found : List String) : String :=
  if violations_found.isEmpty then "compliant"
  else if violations_found.length ≤ 2 then "requires_review"
  else "non_compliant"

/-- C4: the Medical Text Understanding Model's risk score equals
min(0.4·P(unnecessary_procedure) + 0.3·P(experimental_treatment)
+ 0.2·P(cost_concern) + min(0.05·count(DISEASE or SYMPTOM entities), 0.3), 1),
lies in [0,1] when the three probabilities do, and with all three
probabilities 1 and ten DISEASE entities the raw sum 1.2 clamps to exactly 1. -/
theorem c4_risk_score_formula_and_bounds
    (classification : List (String × ℚ)) (entities : List Entity)
    (ha0 : 0 ≤ dictGet classification "unnecessary_procedure")
    (ha1 : dictGet classification "unnecessary_procedure" ≤ 1)
    (hb0 : 0 ≤ dictGet classification "experimental_treatment")
    (hb1 : dictGet classification "experimental_treatment" ≤ 1)
    (hc0 : 0 ≤ dictGet classification "cost_concern")
    (hc1 : dictGet classification "cost_concern" ≤ 1) :
    calculate_risk_score classification entities =
      min ((4/10) * dictGet classification "unnecessary_procedure"
        + (3/10) * dictGet classification "experimental_treatment"
        + (2/10) * dictGet classification "cost_concern"
        + min ((5/100) * (high_risk_entity_count entities : ℚ)) (3/10)) 1
    ∧ 0 ≤ calculate_risk_score classification entities
    ∧ calculate_risk_score classification entities ≤ 1
    ∧ calculate_risk_score
        [("unnecessary_procedure", 1), ("experimental_treatment", 1),
          ("cost_concern", 1)]
        (List.replicate 10 { type := "DISEASE", text := "d", confidence := 9/10 })
        = 1 := by
  have hbase : (0:ℚ) ≤ dictGet classification "unnecessary_procedure" * (4/10)
      + dictGet classification "experimental_treatment" * (3/10)
      + dictGet classification "cost_concern" * (2/10) := by
    have := mul_nonneg ha0 (by norm_num : (0:ℚ) ≤ 4/10)
    have := mul_nonneg hb0 (by norm_num : (0:ℚ) ≤ 3/10)
    have := mul_nonneg hc0 (by norm_num : (0:ℚ) ≤ 2/10)
    linarith
  have her : (0:ℚ) ≤ min ((high_risk_entity_count entities : ℚ) * (5/100))
      (3/10) := by
    apply le_min
    · positivity
    · norm_num
  refine ⟨?_, ?_, ?_, ?_⟩
  · simp only [calculate_risk_score]
    rw [mul_comm ((5:ℚ)/100)]
    congr 1
    ring
  · unfold calculate_risk_score
    exact le_min (by linarith) (by norm_num)
  · unfold calculate_risk_score
    exact min_le_right _ _
  · have h1 : dictGet [("unnecessary_procedure", (1:ℚ)), ("experimental_treatment", 1),
        ("cost_concern", 1)] "unnecessary_procedure" = 1 := rfl
    have h2 : dictGet [("unnecessary_procedure", (1:ℚ)), ("experimental_treatment", 1),
        ("cost_concern", 1)] "experimental_treatment" = 1 := rfl
    have h3 : dictGet [("unnecessary_procedure", (1:ℚ)), ("experimental_treatment", 1),
        ("cost_concern", 1)] "cost_concern" = 1 := rfl
    have hn : high_risk_entity_count
        (List.replicate 10 { type := "DISEASE", text := "d", confidence := 9/10 }) = 10 := rfl
    unfold calculate_risk_score
    rw [h1, h2, h3, hn]
    norm_num [min_def]

/-- Closed-form instance discharging the hypotheses of
c4_risk_score_formula_and_bounds at a concrete classification map. -/
theorem c4_risk_score_witness :
    ((0:ℚ) ≤ dictGet [("unnecessary_procedure", 1/2)] "unnecessary_procedure"
      ∧ dictGet [("unnecessary_procedure", 1/2)] "unnecessary_procedure" ≤ 1)
    ∧ 0 ≤ calculate_risk_score [("unnecessary_procedure", 1/2)] []
    ∧ calculate_risk_score [("unnecessary_procedure", 1/2)] [] ≤ 1 := by
  have hv : dictGet [("unnecessary_procedure", 1/2)] "unnecessary_procedure"
      = 1/2 := rfl
  have he : dictGet [("unnecessary_procedure", 1/2)] "experimental_treatment"
      = 0 := rfl
  have hcc : dictGet [("unnecessary_procedure", 1/2)] "cost_concern" = 0 := rfl
  refine ⟨⟨by rw [hv]; norm_num, by rw [hv]; norm_num⟩, ?_, ?_⟩
  · exact (c4_risk_score_formula_and_bounds [("unnecessary_procedure", 1/2)] []
      (by rw [hv]; try norm_num) (by rw [hv]; try norm_num) (by rw [he]; try norm_num)
      (by rw [he]; try norm_num) (by rw [hcc]; try norm_num) (by rw [hcc]; try norm_num)).2.1
  · exact (c4_risk_score_formula_and_bounds [("unnecessary_procedure", 1/2)] []
      (by rw [hv]; try norm_num) (by rw [hv]; try norm_num) (by rw [he]; try norm_num)
      (by rw [he]; try norm_num) (by rw [hcc]; try norm_num) (by rw [hcc]; try norm_num)).2.2.1

/-- C5: under the default thresholds the fraud risk level is high iff p ≥ 0.8,
medium iff 0.6 ≤ p < 0.8, low iff 0.3 ≤ p < 0.6 and minimal iff p < 0.3;
severity is monotone in p; and the four boundary probes evaluate as claimed. -/
theorem c5_fraud_risk_level_thresholds (p q : ℚ)
    (hp0 : 0 ≤ p) (hp1 : p ≤ 1) (hq0 : 0 ≤ q) (hq1 : q ≤ 1) :
    ((determine_risk_level p = "high" ↔ 8/10 ≤ p)
      ∧ (determine_risk_level p = "medium" ↔ 6/10 ≤ p ∧ p < 8/10)
      ∧ (determine_risk_level p = "low" ↔ 3/10 ≤ p ∧ p < 6/10)
      ∧ (determine_risk_level p = "minimal" ↔ p < 3/10))
    ∧ (p ≤ q →
        riskLevelSeverity (determine_risk_level p)
          ≤ riskLevelSeverity (determine_risk_level q))
    ∧ determine_risk_level (29/100) = "minimal"
    ∧ determine_risk_level (3/10) = "low"
    ∧ determine_risk_level (6/10) = "medium"
    ∧ determine_risk_level (8/10) = "high" := by
  have e1 : determine_risk_level (29/100) = "minimal" := by
    norm_num [determine_risk_level, threshold_high, threshold_medium, threshold_low]
  have e2 : determine_risk_level (3/10) = "low" := by
    norm_num [determine_risk_level, threshold_high, threshold_medium, threshold_low]
  have e3 : determine_risk_level (6/10) = "medium" := by
    norm_num [determine_risk_level, threshold_high, threshold_medium, threshold_low]
  have e4 : determine_risk_level (8/10) = "high" := by
    norm_num [determine_risk_level, threshold_high, threshold_medium, threshold_low]
  refine ⟨⟨?_, ?_, ?_, ?_⟩, ?_, e1, e2, e3, e4⟩
  · unfold determine_risk_level threshold_high threshold_medium threshold_low
    split_ifs <;> simp_all
    all_goals intros
    all_goals try constructor
    all_goals intros
    all_goals linarith
  · unfold determine_risk_level threshold_high threshold_medium threshold_low
    split_ifs <;> simp_all
    all_goals intros
    all_goals try constructor
    all_goals intros
    all_goals linarith
  · unfold determine_risk_level threshold_high threshold_medium threshold_low
    split_ifs <;> simp_all
    all_goals intros
    all_goals try constructor
    all_goals intros
    all_goals linarith
  · unfold determine_risk_level threshold_high threshold_medium threshold_low
    split_ifs <;> simp_all
    all_goals intros
    all_goals try constructor
    all_goals intros
    all_goals linarith
  · intro hpq
    unfold determine_risk_level threshold_high threshold_medium threshold_low
    split_ifs <;> simp_all [riskLevelSeverity]
    all_goals intros
    all_goals linarith

/-- Closed-form instance discharging the hypotheses of
c5_fraud_risk_level_thresholds at p = 0.5, q = 0.9. -/
theorem c5_fraud_risk_level_witness :
    ((0:ℚ) ≤ 1/2 ∧ (1:ℚ)/2 ≤ 1 ∧ (0:ℚ) ≤ 9/10 ∧ (9:ℚ)/10 ≤ 1)
    ∧ determine_risk_level (1/2) = "low" := by
  refine ⟨by norm_num, ?_⟩
  exact (c5_fraud_risk_level_thresholds (1/2) (9/10) (by norm_num) (by norm_num)
    (by norm_num) (by norm_num)).1.2.2.1.mpr (by norm_num)

/-- C6: the compliance status is a deterministic function of the violation
count v; it is compliant iff v = 0, requires_review iff 1 ≤ v ≤ 2 and
non_compliant iff v > 2, verified at v in 0, 1, 2, 3, 5. -/
theorem c6_compliance_status_from_violation_count (v : List String) :
    (compliance_status v = "compliant" ↔ v.length = 0)
    ∧ (compliance_status v = "requires_review" ↔ 1 ≤ v.length ∧ v.length ≤ 2)
    ∧ (compliance_status v = "non_compliant" ↔ 2 < v.length)
    ∧ (∀ w : List String, v.length = w.length →
        compliance_status v = compliance_status w)
    ∧ compliance_status [] = "compliant"
    ∧ compliance_status (List.replicate 1 "x") = "requires_review"
    ∧ compliance_status (List.replicate 2 "x") = "requires_review"
    ∧ compliance_status (List.replicate 3 "x") = "non_compliant"
    ∧ compliance_status (List.replicate 5 "x") = "non_compliant" := by
  have hlen : ∀ u : List String, compliance_status u =
      (if u.length = 0 then "compliant"
        else if u.length ≤ 2 then "requires_review" else "non_compliant") := by
    intro u
    unfold compliance_status
    cases u <;> simp
  refine ⟨?_, ?_, ?_, ?_, rfl, rfl, rfl, rfl, rfl⟩
  · rw [hlen]
    rcases v with _ | ⟨a, t⟩ <;> split_ifs <;> simp_all <;> omega
  · rw [hlen]
    rcases v with _ | ⟨a, t⟩ <;> split_ifs <;> simp_all <;> omega
  · rw [hlen]
    rcases v with _ | ⟨a, t⟩ <;> split_ifs <;> simp_all <;> omega
  · intro w hw
    rw [hlen, hlen, hw]

/-- Closed-form instance discharging the inner hypothesis of
c6_compliance_status_from_violation_count on two length-1 lists. -/
theorem c6_compliance_status_witness :
    ([("a" : String)].length = [("b" : String)].length)
    ∧ compliance_status ["a"] = compliance_status ["b"] := by
  refine ⟨rfl, ?_⟩
  exact (c6_compliance_status_from_violation_count ["a"]).2.2.2.1 ["b"] rfl

/-- One stored chat exchange: the dict with keys user, assistant, timestamp
built by ContextManager.store_chat_message. -/
structure ChatMessage where
  user : String
  assistant : String
  timestamp : String
deriving DecidableEq, Repr

/-- ContextManager.store_chat_message on the per-case history list (in-memory
branch): insert the new message at the front, then keep only the first 100. -/
def store_chat_message (history : List ChatMessage) (message : ChatMessage) :
    List ChatMessage :=
  (message :: history).take 100

/-- ContextManager.get_chat_history (in-memory branch): the first limit
entries of the stored list (default limit 20 at the call site). -/
def get_chat_history (history : List ChatMessage) (limit : ℕ) :
    List ChatMessage :=
  history.take limit

/-- Per-case history after a sequence of store_chat_message calls, oldest call
first, starting from the absent-key state (empty list). -/
def run_store_calls (messages : List ChatMessage) : List ChatMessage :=
  messages.foldl store_chat_message []

/-- Taking n of an append where the tail is already truncated to n is the same
as taking n of the plain append. -/
theorem take_append_take {α : Type} (xs ys : List α) (n : ℕ) :
    (xs ++ ys.take n).take n = (xs ++ ys).take n := by
  rw [List.take_append_eq_append_take, List.take_append_eq_append_take,
    List.take_take]
  congr 1
  exact congrArg ys.take (Nat.min_eq_left (Nat.sub_le n xs.length))

/-- Folding store_chat_message over a message list keeps the reversed list
truncated to 100, for any starting history of length at most 100. -/
theorem run_store_calls_eq_aux (messages : List ChatMessage) :
    ∀ acc : List ChatMessage, acc.length ≤ 100 →
      messages.foldl store_chat_message acc = (messages.reverse ++ acc).take 100 := by
  induction messages with
  | nil =>
      intro acc hacc
      simp [List.take_of_length_le hacc]
  | cons m rest ih =>
      intro acc hacc
      have hlen : ((m :: acc).take 100).length ≤ 100 := by
        simpa using Nat.min_le_left 100 (m :: acc).length
      calc (m :: rest).foldl store_chat_message acc
          = rest.foldl store_chat_message ((m :: acc).take 100) := rfl
        _ = (rest.reverse ++ (m :: acc).take 100).take 100 := ih _ hlen
        _ = (rest.reverse ++ (m :: acc)).take 100 := by
            rw [take_append_take]
        _ = ((m :: rest).reverse ++ acc).take 100 := by
            simp

/-- C7: after any sequence of store_chat_message calls the per-case history is
exactly the most recent 100 messages in most-recent-first order;
get_chat_history returns at most 100 entries (a prefix of that list), and
after 105 stores exactly the most recent 100 are retrievable. -/
theorem c7_chat_history_capped_at_100 (messages : List ChatMessage)
    (limit : ℕ) :
    run_store_calls messages = messages.reverse.take 100
    ∧ get_chat_history (run_store_calls messages) limit
        = (messages.reverse.take 100).take limit
    ∧ (get_chat_history (run_store_calls messages) limit).length ≤ 100
    ∧ (messages.length = 105 →
        get_chat_history (run_store_calls messages) 100
            = messages.reverse.take 100
        ∧ (get_chat_history (run_store_calls messages) 100).length = 100) := by
  have hrun : run_store_calls messages = messages.reverse.take 100 := by
    unfold run_store_calls
    rw [run_store_calls_eq_aux messages [] (by simp)]
    simp
  refine ⟨hrun, ?_, ?_, ?_⟩
  · rw [get_chat_history, hrun]
  · rw [get_chat_history, hrun]
    simp [List.length_take]
  · intro h105
    constructor
    · rw [get_chat_history, hrun, List.take_take]
      simp
    · rw [get_chat_history, hrun, List.take_take, List.length_take,
        List.length_reverse, h105]
      omega

/-- Closed-form instance discharging the length-105 hypothesis of
c7_chat_history_capped_at_100 on a concrete list of 105 stored messages. -/
theorem c7_chat_history_witness :
    (List.replicate 105 ({ user := "u", assistant := "a", timestamp := "t" }
        : ChatMessage)).length = 105
    ∧ (get_chat_history (run_store_calls (List.replicate 105
        ({ user := "u", assistant := "a", timestamp := "t" } : ChatMessage))) 100).length
      = 100 := by
  refine ⟨by simp, ?_⟩
  exact ((c7_chat_history_capped_at_100 (List.replicate 105
    { user := "u", assistant := "a", timestamp := "t" }) 100).2.2.2
    (by simp)).2

/-- Treatment record inside a sequence handed to the LSTM pattern model:
only the procedure_code key matters here (get with default ""). -/
structure TreatmentRecord where
  procedure_code : String
deriving DecidableEq, Repr

/-- Fixed standard procedure set hard-coded in
LSTMPatternModel._calculate_protocol_adherence. -/
def standard_procedures : List String := ["P001", "P002", "P003", "P004", "P005"]

/-- LSTMPatternModel._calculate_protocol_adherence: the count of procedure
codes belonging to the standard set divided by (number of codes + 1). -/
def calculate_protocol_adherence (sequence : List TreatmentRecord) : ℚ :=
  let procedure_codes := sequence.map (fun r => r.procedure_code)
  let adherent_count :=
    (procedure_codes.filter (fun p => standard_procedures.contains p)).length
  (adherent_count : ℚ) / ((procedure_codes.length : ℚ) + 1)

/-- C8 counterexample: a one-record sequence whose only code P001 lies in the
standard set has protocol adherence 1/2, not the claimed fraction 1. -/
theorem c8_counterexample_adherence_not_fraction :
    standard_procedures.contains
        ({ procedure_code := "P001" } : TreatmentRecord).procedure_code = true
    ∧ calculate_protocol_adherence [{ procedure_code := "P001" }] = 1/2
    ∧ calculate_protocol_adherence [{ procedure_code := "P001" }] ≠ 1 := by
  have h : calculate_protocol_adherence [{ procedure_code := "P001" }]
      = (1 : ℚ) / (1 + 1) := rfl
  refine ⟨rfl, ?_, ?_⟩
  · rw [h]; norm_num
  · rw [h]; norm_num

/-- C8 amended: protocol_adherence equals (number of procedure codes in the
standard set) divided by (number of codes + 1); a sequence whose codes all
lie in the standard set yields n/(n+1), and the metric is always < 1. -/
theorem c8_protocol_adherence_formula (sequence : List TreatmentRecord) :
    calculate_protocol_adherence sequence =
      (((sequence.map (fun r => r.procedure_code)).filter
        (fun p => standard_procedures.contains p)).length : ℚ)
        / ((sequence.length : ℚ) + 1)
    ∧ ((∀ r ∈ sequence, standard_procedures.contains r.procedure_code = true) →
        calculate_protocol_adherence sequence
          = (sequence.length : ℚ) / ((sequence.length : ℚ) + 1))
    ∧ calculate_protocol_adherence sequence < 1 := by
  have hform : calculate_protocol_adherence sequence =
      (((sequence.map (fun r => r.procedure_code)).filter
        (fun p => standard_procedures.contains p)).length : ℚ)
        / ((sequence.length : ℚ) + 1) := by
    simp only [calculate_protocol_adherence]
    rw [List.length_map]
  have hden : (0:ℚ) < (sequence.length : ℚ) + 1 := by positivity
  refine ⟨hform, ?_, ?_⟩
  · intro hall
    rw [hform]
    have hfilter : (sequence.map (fun r => r.procedure_code)).filter
        (fun p => standard_procedures.contains p)
        = sequence.map (fun r => r.procedure_code) := by
      rw [List.filter_eq_self]
      intro p hp
      rcases List.mem_map.mp hp with ⟨r, hr, rfl⟩
      exact hall r hr
    rw [hfilter, List.length_map]
  · rw [hform]
    rw [div_lt_one hden]
    have hle : ((sequence.map (fun r => r.procedure_code)).filter
        (fun p => standard_procedures.contains p)).length
        ≤ sequence.length := by
      calc ((sequence.map (fun r => r.procedure_code)).filter
          (fun p => standard_procedures.contains p)).length
          ≤ (sequence.map (fun r => r.procedure_code)).length :=
            List.length_filter_le _ _
        _ = sequence.length := List.length_map _ _
    have : ((((sequence.map (fun r => r.procedure_code)).filter
        (fun p => standard_procedures.contains p)).length : ℚ))
        ≤ (sequence.length : ℚ) := by exact_mod_cast hle
    linarith

/-- Closed-form instance discharging the all-standard hypothesis of
c8_protocol_adherence_formula on a concrete one-record sequence. -/
theorem c8_protocol_adherence_witness :
    calculate_protocol_adherence [({ procedure_code := "P002" } : TreatmentRecord)]
      = (1 : ℚ) / (1 + 1) := by
  have := (c8_protocol_adherence_formula [{ procedure_code := "P002" }]).2.1
    (by intro r hr; simp only [List.mem_singleton] at hr; subst hr; rfl)
  simpa using this

/-- Character class [A-Z] of the validator regular expressions. -/
def isUpperAZ (c : Char) : Bool := 'A' ≤ c && c ≤ 'Z'

/-- Character class [0-9] of the validator regular expressions. -/
def isDigit09 (c : Char) : Bool := '0' ≤ c && c ≤ '9'

/-- Full match against the procedure-code pattern: at least three characters,
all of them upper-case letters or digits. -/
def procedure_code_ok (s : String) : Bool :=
  decide (3 ≤ s.length) && s.toList.all (fun c => isUpperAZ c || isDigit09 c)

/-- Full match against the ICD-like diagnosis pattern: an upper-case letter,
two digits, then optionally a dot followed by one or two digits. -/
def diagnosis_code_ok (s : String) : Bool :=
  match s.toList with
  | [a, d1, d2] => isUpperAZ a && isDigit09 d1 && isDigit09 d2
  | [a, d1, d2, dot, e1] =>
      isUpperAZ a && isDigit09 d1 && isDigit09 d2 && (dot == '.')
        && isDigit09 e1
  | [a, d1, d2, dot, e1, e2] =>
      isUpperAZ a && isDigit09 d1 && isDigit09 d2 && (dot == '.')
        && isDigit09 e1 && isDigit09 e2
  | _ => false

/-- One entry of the treatment_history list: either not a dictionary, or a
dictionary with or without the date and procedure_code keys. -/
inductive TreatmentHistoryRecord
  | notDict
  | dict (hasDate : Bool) (hasProcedureCode : Bool)
deriving DecidableEq, Repr

/-- Case payload handed to validate_case_data. Absent keys are None; the two
code fields default to the empty string as in data.get(key, ""). -/
structure CaseData where
  patient_age : Option Int
  patient_gender : Option String
  procedure_code : String
  diagnosis_code : String
  cost_requested : Option ℚ
  urgency_level : Option String
  treatment_history : List TreatmentHistoryRecord
deriving DecidableEq

/-- Age check of validate_case_data (type check omitted: ages are integers). -/
def age_errors (d : CaseData) : List String :=
  match d.patient_age with
  | some age => if age < 0 ∨ 150 < age then ["Invalid patient age"] else []
  | none => []

/-- Gender check of validate_case_data; an empty string is falsy in Python and
is therefore not checked. -/
def gender_errors (d : CaseData) : List String :=
  match d.patient_gender with
  | some g =>
      if g ≠ "" ∧ g ∉ ["M", "F", "O"] then ["Invalid gender. Must be M, F, or O"]
      else []
  | none => []

/-- Procedure-code check of validate_case_data. -/
def procedure_code_errors (d : CaseData) : List String :=
  if procedure_code_ok d.procedure_code then []
  else ["Invalid procedure code format"]

/-- Diagnosis-code check of validate_case_data. -/
def diagnosis_code_errors (d : CaseData) : List String :=
  if diagnosis_code_ok d.diagnosis_code then []
  else ["Invalid diagnosis code format (ICD)"]

/-- Cost check of validate_case_data: only a negative (or non-numeric, which
the typed model excludes) cost is an error. -/
def cost_errors (d : CaseData) : List String :=
  match d.cost_requested with
  | some cost => if cost < 0 then ["Invalid cost requested"] else []
  | none => []

/-- Urgency check of validate_case_data; an empty string is falsy and skipped,
matching the gender check. -/
def urgency_errors (d : CaseData) : List String :=
  match d.urgency_level with
  | some u =>
      if u ≠ "" ∧ u ∉ ["routine", "urgent", "emergency"] then
        ["Invalid urgency level"]
      else []
  | none => []

/-- Per-record check of the first five treatment-history entries. -/
def treatment_history_record_errors (i : ℕ) (r : TreatmentHistoryRecord) :
    List String :=
  match r with
  | .notDict =>
      ["Treatment history record " ++ toString i ++ " must be a dictionary"]
  | .dict hasDate hasProcedureCode =>
      if !hasDate || !hasProcedureCode then
        ["Treatment history record " ++ toString i ++ " missing required fields"]
      else []

/-- Treatment-history check of validate_case_data: the first five records,
each with its index. -/
def treatment_history_errors (d : CaseData) : List String :=
  (((d.treatment_history.take 5).enum).map
    (fun p => treatment_history_record_errors p.1 p.2)).join

/-- validate_case_data: accumulate the per-field error lists in source order
and return them, or None when no check failed. -/
def validate_case_data (d : CaseData) : Option (List String) :=
  let errors := age_errors d ++ gender_errors d ++ procedure_code_errors d
    ++ diagnosis_code_errors d ++ cost_errors d ++ urgency_errors d
    ++ treatment_history_errors d
  if errors.isEmpty then none else some errors

/-- Concrete case payload: every field satisfies its constraint and the
requested cost is exactly zero. -/
def zeroCostCase : CaseData :=
  { patient_age := some 30, patient_gender := some "M",
    procedure_code := "ABC", diagnosis_code := "A12",
    cost_requested := some 0, urgency_level := some "routine",
    treatment_history := [] }

/-- The same payload with a negative requested cost. -/
def negativeCostCase : CaseData :=
  { zeroCostCase with cost_requested := some (-5) }

/-- C9 counterexample: on a payload whose cost_requested is zero and whose
other fields are all valid, validate_case_data returns no errors, refuting
the claim that a zero cost yields a non-empty error list. -/
theorem c9_counterexample_zero_cost_accepted :
    zeroCostCase.cost_requested = some 0
    ∧ validate_case_data zeroCostCase = none := by
  exact ⟨rfl, rfl⟩

/-- C9 amended: validate_case_data enforces cost ≥ 0, not cost > 0: a payload
with cost_requested = 0 and every other field valid produces no errors, while
any negative cost_requested yields the cost error message. -/
theorem c9_cost_validation (d : CaseData) :
    (age_errors d = [] → gender_errors d = [] → procedure_code_errors d = [] →
      diagnosis_code_errors d = [] → urgency_errors d = [] →
      treatment_history_errors d = [] → d.cost_requested = some 0 →
      validate_case_data d = none)
    ∧ (∀ c : ℚ, d.cost_requested = some c → c < 0 →
        ∃ errs, validate_case_data d = some errs
          ∧ "Invalid cost requested" ∈ errs) := by
  constructor
  · intro h1 h2 h3 h4 h5 h6 hcost
    have hc : cost_errors d = [] := by
      unfold cost_errors
      rw [hcost]
      norm_num
    unfold validate_case_data
    rw [h1, h2, h3, h4, h5, h6, hc]
    rfl
  · intro c hcost hneg
    have hc : cost_errors d = ["Invalid cost requested"] := by
      unfold cost_errors
      rw [hcost]
      simp [hneg]
    have hmem : "Invalid cost requested" ∈ age_errors d ++ gender_errors d
        ++ procedure_code_errors d ++ diagnosis_code_errors d ++ cost_errors d
        ++ urgency_errors d ++ treatment_history_errors d := by
      rw [hc]
      simp
    refine ⟨age_errors d ++ gender_errors d ++ procedure_code_errors d
      ++ diagnosis_code_errors d ++ cost_errors d ++ urgency_errors d
      ++ treatment_history_errors d, ?_, hmem⟩
    have hne : (age_errors d ++ gender_errors d ++ procedure_code_errors d
        ++ diagnosis_code_errors d ++ cost_errors d ++ urgency_errors d
        ++ treatment_history_errors d).isEmpty = false := by
      rw [Bool.eq_false_iff]
      intro htrue
      exact List.ne_nil_of_mem hmem (List.isEmpty_iff.mp htrue)
    simp only [validate_case_data]
    simp [hne]
    intro h1 h2 h3 h4 h5 h6
    rw [hc] at h5
    simp at h5

/-- Closed-form instance discharging the hypotheses of c9_cost_validation on
the two concrete payloads. -/
theorem c9_cost_validation_witness :
    validate_case_data zeroCostCase = none
    ∧ ∃ errs, validate_case_data negativeCostCase = some errs
        ∧ "Invalid cost requested" ∈ errs := by
  constructor
  · exact (c9_cost_validation zeroCostCase).1 rfl rfl rfl rfl rfl rfl rfl
  · exact (c9_cost_validation negativeCostCase).2 (-5) rfl (by norm_num)

/-- Modelled evaluation-time semantics of the pydantic class-body defaults in
models/base.py: default expressions are evaluated exactly once, when the
class body executes, and the resulting values are reused by every
construction that does not supply the field. uuid4 is modelled as an
injective function of a global call counter, utcnow as the identity on the
clock tick at evaluation time. -/
def uuid4 (call : ℕ) : ℕ := call

/-- Clock reading at a given tick, modelling datetime.utcnow(). -/
def utcnow (tick : ℕ) : ℕ := tick

/-- Value of str(uuid.uuid4()) in the ModelPrediction class body, computed
once at class-definition time (call 0). -/
def modelPrediction_default_prediction_id : ℕ := uuid4 0

/-- Value of datetime.utcnow() in the ModelPrediction class body, computed
once at class-definition time (tick 0). -/
def modelPrediction_default_timestamp : ℕ := utcnow 0

/-- Value of str(uuid.uuid4()) in the ModelInput class body, computed once at
class-definition time (call 1). -/
def modelInput_default_request_id : ℕ := uuid4 1

/-- Identifier-bearing part of a constructed ModelPrediction. -/
structure ModelPredictionRecord where
  timestamp : ℕ
  prediction_id : ℕ
deriving DecidableEq, Repr

/-- Construction of ModelPrediction at a given clock tick: fields not supplied
explicitly fall back to the class-definition-time defaults; the construction
tick itself is never consulted by the source. -/
def mkModelPrediction (_constructionTick : ℕ) (prediction_id : Option ℕ)
    (timestamp : Option ℕ) : ModelPredictionRecord :=
  { timestamp := timestamp.getD modelPrediction_default_timestamp,
    prediction_id := prediction_id.getD modelPrediction_default_prediction_id }

/-- Construction-time request_id of a ModelInput, with the same fallback. -/
def mkModelInputRequestId (_constructionTick : ℕ) (request_id : Option ℕ) : ℕ :=
  request_id.getD modelInput_default_request_id

/-- C3, evaluated at the failing input: two ModelPrediction constructions at
distinct ticks that omit prediction_id and timestamp share one prediction_id
and one timestamp, the timestamp does not reflect either construction's own
tick, and two ModelInput constructions share one request_id — the class-body
defaults are evaluated once, contradicting the claimed per-call freshness. -/
theorem c3_defaults_shared_across_constructions :
    (mkModelPrediction 5 none none).prediction_id
        = (mkModelPrediction 9 none none).prediction_id
    ∧ (mkModelPrediction 5 none none).timestamp
        = (mkModelPrediction 9 none none).timestamp
    ∧ (mkModelPrediction 5 none none).timestamp ≠ utcnow 5
    ∧ mkModelInputRequestId 5 none = mkModelInputRequestId 9 none := by
  refine ⟨rfl, rfl, ?_, rfl⟩
  simp [mkModelPrediction, modelPrediction_default_timestamp, utcnow]

/-- Vote a pipeline stage casts into the weighted decision buckets of
_combine_decisions. -/
inductive Vote
  | approved
  | denied
  | requiresReview
deriving DecidableEq, Repr

/-- Per-stage prediction summary as consumed by the combination steps of the
pipeline: the prediction confidence, the decision _extract_stage_decision
yields for the stage (None when no usable vote) and the risk score
_extract_risk_score yields (None for stages without one). -/
structure StageResult where
  confidence : ℚ
  vote : Option Vote
  risk : Option ℚ
deriving DecidableEq

/-- Decision stage state after execution: the configured name and weight plus
the result and error fields _execute_stage fills in. -/
structure Stage where
  name : String
  weight : ℚ
  result : Option StageResult
  error : Option String
deriving DecidableEq

/-- AuditDecisionPipeline._execute_stage: a successful model call stores its
result; a raised exception is captured as the stage error and never
propagated. -/
def execute_stage (name : String) (weight : ℚ)
    (run : Except String StageResult) : Stage :=
  match run with
  | .ok r => { name := name, weight := weight, result := some r, error := none }
  | .error e =>
      { name := name, weight := weight, result := none, error := some e }

/-- Stage outcome entry produced by _format_stage_results. -/
inductive StageStatus
  | completed (confidence : ℚ)
  | failed (error : String)
deriving DecidableEq

/-- AuditDecisionPipeline._format_stage_results: completed with the stage
confidence when a result exists, failed with the error text otherwise. -/
def format_stage_results (stages : List Stage) : List (String × StageStatus) :=
  stages.foldr (fun s acc =>
    match s.result, s.error with
    | some r, _ => (s.name, StageStatus.completed r.confidence) :: acc
    | none, some e => (s.name, StageStatus.failed e) :: acc
    | none, none => acc) []

/-- One step of the weighted vote accumulation in _combine_decisions: only a
stage with a result and no error contributes its weight to the bucket of its
extracted decision. -/
def vote_step (t : ℚ × ℚ × ℚ) (s : Stage) : ℚ × ℚ × ℚ :=
  match s.result, s.error with
  | some r, none =>
      match r.vote with
      | some Vote.approved => (t.1 + s.weight, t.2.1, t.2.2)
      | some Vote.denied => (t.1, t.2.1 + s.weight, t.2.2)
      | some Vote.requiresReview => (t.1, t.2.1, t.2.2 + s.weight)
      | none => t
  | _, _ => t

/-- Weighted decision buckets (approved, denied, requires_review) accumulated
by _combine_decisions. -/
def vote_weights (stages : List Stage) : ℚ × ℚ × ℚ :=
  stages.foldl vote_step (0, 0, 0)

/-- Risk contributions collected by _combine_decisions: risk score times
stage weight, for stages with a result, no error and an extractable risk. -/
def risk_contributions (stages : List Stage) : List ℚ :=
  stages.foldr (fun s acc =>
    match s.result, s.error with
    | some r, none =>
        match r.risk with
        | some rs => rs * s.weight :: acc
        | none => acc
    | _, _ => acc) []

/-- Final-decision computation at the end of _combine_decisions: approval and
denial fractions of the total voted weight against the decision threshold,
requires_review when the total is not positive. -/
def final_status_of_tally (threshold : ℚ) (t : ℚ × ℚ × ℚ) : String :=
  let total := t.1 + t.2.1 + t.2.2
  if 0 < total then
    if threshold ≤ t.1 / total then "approved"
    else if threshold ≤ t.2.1 / total then "denied"
    else "requires_review"
  else "requires_review"

/-- Final pipeline status of _combine_decisions over executed stages. -/
def combine_final_status (threshold : ℚ) (stages : List Stage) : String :=
  final_status_of_tally threshold (vote_weights stages)

/-- Stage filter used by _calculate_overall_confidence: a result is present
and no error was recorded. -/
def stage_succeeded (s : Stage) : Bool := s.result.isSome && s.error.isNone

/-- AuditDecisionPipeline._calculate_overall_confidence: sum of confidence
times weight over error-free stages with a result, divided by the sum of
those stages' weights; 0 when no stage succeeded. -/
def calculate_overall_confidence (stages : List Stage) : ℚ :=
  let confidences := stages.foldr (fun s acc =>
    match s.result, s.error with
    | some r, none => r.confidence * s.weight :: acc
    | _, _ => acc) []
  if confidences.isEmpty then 0
  else confidences.sum / ((stages.filter stage_succeeded).map Stage.weight).sum

/-- Stage names, in pipeline order. -/
def stage_name : Fin 4 → String
  | 0 => "medical_validation"
  | 1 => "expert_review"
  | 2 => "fraud_detection"
  | 3 => "pattern_analysis"

/-- Default stage weights (stage_weights config keys absent):
0.3, 0.3, 0.2, 0.2. -/
def default_stage_weight : Fin 4 → ℚ
  | 0 => 3/10
  | 1 => 3/10
  | 2 => 2/10
  | 3 => 2/10

/-- Executed pipeline stages over a chosen index list, weight assignment and
per-stage outcome. -/
def pipeline_stages_on (idxs : List (Fin 4)) (w : Fin 4 → ℚ)
    (runs : Fin 4 → Except String StageResult) : List Stage :=
  idxs.map (fun j => execute_stage (stage_name j) (w j) (runs j))

/-- The four executed pipeline stages. -/
def pipeline_stages (w : Fin 4 → ℚ)
    (runs : Fin 4 → Except String StageResult) : List Stage :=
  pipeline_stages_on (List.finRange 4) w runs

/-- The index list 0, 1, 2, 3. -/
theorem finRange_four : List.finRange 4 = [0, 1, 2, 3] := rfl

/-- C1: when exactly one of the four stages raises and the other three
succeed, the stage_results map marks the failing stage failed with its error
text and the others completed; the weighted vote and the risk aggregation
equal those computed from the three succeeding stages alone; the overall
confidence is the weighted confidence sum of the three succeeding stages
divided by the sum of their weights only; and a run where every stage fails
has confidence 0. -/
theorem c1_single_stage_failure_isolated (w : Fin 4 → ℚ) (i : Fin 4)
    (e : String) (f : Fin 4 → StageResult) (hw : ∀ j, 0 < w j) :
    format_stage_results
        (pipeline_stages w (fun j => if j = i then .error e else .ok (f j)))
      = (List.finRange 4).map (fun j => (stage_name j,
          if j = i then StageStatus.failed e
          else StageStatus.completed (f j).confidence))
    ∧ vote_weights
        (pipeline_stages w (fun j => if j = i then .error e else .ok (f j)))
      = vote_weights (pipeline_stages_on
          ((List.finRange 4).filter (fun j => j != i)) w (fun j => .ok (f j)))
    ∧ risk_contributions
        (pipeline_stages w (fun j => if j = i then .error e else .ok (f j)))
      = risk_contributions (pipeline_stages_on
          ((List.finRange 4).filter (fun j => j != i)) w (fun j => .ok (f j)))
    ∧ calculate_overall_confidence
        (pipeline_stages w (fun j => if j = i then .error e else .ok (f j)))
      = (((List.finRange 4).filter (fun j => j != i)).map
          (fun j => (f j).confidence * w j)).sum
        / (((List.finRange 4).filter (fun j => j != i)).map
            (fun j => w j)).sum
    ∧ calculate_overall_confidence (pipeline_stages w (fun _ => .error e))
      = 0 := by
  fin_cases i <;> exact ⟨rfl, rfl, rfl, rfl, rfl⟩

/-- Concrete stage result for witnesses: confidence 1/2, vote approved,
risk 1/4. -/
def sampleStageResult : StageResult :=
  { confidence := 1/2, vote := some Vote.approved, risk := some (1/4) }

/-- Closed-form instance discharging the positive-weight hypothesis of
c1_single_stage_failure_isolated at the default weights, with stage 0
failing and the others succeeding at confidence 1/2. -/
theorem c1_single_stage_failure_witness :
    (∀ j : Fin 4, 0 < default_stage_weight j)
    ∧ calculate_overall_confidence (pipeline_stages default_stage_weight
        (fun j => if j = (0 : Fin 4) then .error "boom"
          else .ok sampleStageResult))
      = (((List.finRange 4).filter (fun j => j != (0 : Fin 4))).map
          (fun j => sampleStageResult.confidence * default_stage_weight j)).sum
        / (((List.finRange 4).filter (fun j => j != (0 : Fin 4))).map
            (fun j => default_stage_weight j)).sum := by
  have hw : ∀ j : Fin 4, 0 < default_stage_weight j := by
    intro j
    fin_cases j <;> norm_num [default_stage_weight]
  exact ⟨hw, (c1_single_stage_failure_isolated default_stage_weight 0 "boom"
    (fun _ => sampleStageResult) hw).2.2.2.1⟩

/-- Each vote-accumulation step can only increase each bucket, by the stage
weight at most. -/
theorem vote_step_le (t : ℚ × ℚ × ℚ) (s : Stage) (hw : 0 ≤ s.weight) :
    t.1 ≤ (vote_step t s).1 ∧ t.2.1 ≤ (vote_step t s).2.1
      ∧ t.2.2 ≤ (vote_step t s).2.2 := by
  unfold vote_step
  rcases s with ⟨n, wt, res, err⟩
  rcases res with _ | r
  · simp
  · rcases err with _ | e
    · rcases r with ⟨c, v, rk⟩
      rcases v with _ | v
      · simp
      · rcases v
        all_goals refine ⟨?_, ?_, ?_⟩
        all_goals simp
        all_goals linarith
    · simp

/-- The accumulated vote buckets are nonnegative when every stage weight is
nonnegative. -/
theorem vote_weights_nonneg (stages : List Stage)
    (h : ∀ s ∈ stages, 0 ≤ s.weight) :
    0 ≤ (vote_weights stages).1 ∧ 0 ≤ (vote_weights stages).2.1
      ∧ 0 ≤ (vote_weights stages).2.2 := by
  have main : ∀ (l : List Stage) (t : ℚ × ℚ × ℚ),
      (∀ s ∈ l, 0 ≤ s.weight) →
      t.1 ≤ (l.foldl vote_step t).1 ∧ t.2.1 ≤ (l.foldl vote_step t).2.1
        ∧ t.2.2 ≤ (l.foldl vote_step t).2.2 := by
    intro l
    induction l with
    | nil =>
        intro t _
        exact ⟨le_refl _, le_refl _, le_refl _⟩
    | cons s rest ih =>
        intro t hl
        have hs : 0 ≤ s.weight := hl s (List.mem_cons_self s rest)
        have hrest : ∀ x ∈ rest, 0 ≤ x.weight :=
          fun x hx => hl x (List.mem_cons_of_mem s hx)
        have hstep := vote_step_le t s hs
        have hfold := ih (vote_step t s) hrest
        exact ⟨le_trans hstep.1 hfold.1, le_trans hstep.2.1 hfold.2.1,
          le_trans hstep.2.2 hfold.2.2⟩
  have h0 := main stages (0, 0, 0) h
  simpa [vote_weights] using h0

/-- Characterization of the final status for a threshold above one half over
nonnegative buckets: approved and denied are each equivalent to their own
weight fraction reaching the threshold, requires_review to neither doing so
(including the no-votes case). -/
theorem final_status_characterization (threshold : ℚ) (t : ℚ × ℚ × ℚ)
    (h1 : 0 ≤ t.1) (h2 : 0 ≤ t.2.1) (h3 : 0 ≤ t.2.2) (hth : 1/2 < threshold) :
    (final_status_of_tally threshold t = "approved"
      ↔ 0 < t.1 + t.2.1 + t.2.2
        ∧ threshold ≤ t.1 / (t.1 + t.2.1 + t.2.2))
    ∧ (final_status_of_tally threshold t = "denied"
      ↔ 0 < t.1 + t.2.1 + t.2.2
        ∧ threshold ≤ t.2.1 / (t.1 + t.2.1 + t.2.2))
    ∧ (final_status_of_tally threshold t = "requires_review"
      ↔ ¬(0 < t.1 + t.2.1 + t.2.2
            ∧ threshold ≤ t.1 / (t.1 + t.2.1 + t.2.2))
        ∧ ¬(0 < t.1 + t.2.1 + t.2.2
            ∧ threshold ≤ t.2.1 / (t.1 + t.2.1 + t.2.2))) := by
  have key : 0 < t.1 + t.2.1 + t.2.2 →
      threshold ≤ t.2.1 / (t.1 + t.2.1 + t.2.2) →
      ¬ threshold ≤ t.1 / (t.1 + t.2.1 + t.2.2) := by
    intro htot hden happ
    rw [le_div_iff htot] at hden happ
    nlinarith
  simp only [final_status_of_tally]
  split_ifs with htot happ hden
  · refine ⟨?_, ?_, ?_⟩
    · simp [htot, happ]
    · simp only [String.reduceEq, false_iff]
      intro hcon
      exact key htot hcon.2 happ
    · simp [htot, happ]
  · refine ⟨?_, ?_, ?_⟩
    · simp [happ]
    · simp [htot, hden]
    · simp [htot, hden]
  · refine ⟨?_, ?_, ?_⟩
    · simp [happ]
    · simp [hden]
    · simp [htot, happ, hden]
  · refine ⟨?_, ?_, ?_⟩
    · simp [htot]
    · simp [htot]
    · simp [htot]

/-- Four succeeded stages with the default weights casting the given votes. -/
def voted_stages (v : Fin 4 → Option Vote) : List Stage :=
  pipeline_stages default_stage_weight
    (fun j => .ok { confidence := 0, vote := v j, risk := none })

/-- Spec example votes: three approvals and one requires_review. -/
def votesExampleA : Fin 4 → Option Vote
  | 0 => some Vote.approved
  | 1 => some Vote.approved
  | 2 => some Vote.approved
  | 3 => some Vote.requiresReview

/-- Spec example votes: only the first two stages approve. -/
def votesExampleB : Fin 4 → Option Vote
  | 0 => some Vote.approved
  | 1 => some Vote.approved
  | 2 => some Vote.requiresReview
  | 3 => some Vote.requiresReview

/-- C2: with the default threshold 0.75 and weights 0.3/0.3/0.2/0.2, the
final status is approved iff the approval-weight fraction reaches 0.75,
denied iff the denial-weight fraction does, requires_review otherwise or
when no stage voted; three approvals of weight 0.8 yield approved, two
approvals of weight 0.6 yield requires_review. -/
theorem c2_weighted_vote_decision (v : Fin 4 → Option Vote) :
    (combine_final_status (3/4) (voted_stages v) = "approved"
      ↔ 0 < (vote_weights (voted_stages v)).1 + (vote_weights (voted_stages v)).2.1
            + (vote_weights (voted_stages v)).2.2
        ∧ 3/4 ≤ (vote_weights (voted_stages v)).1
            / ((vote_weights (voted_stages v)).1 + (vote_weights (voted_stages v)).2.1
              + (vote_weights (voted_stages v)).2.2))
    ∧ (combine_final_status (3/4) (voted_stages v) = "denied"
      ↔ 0 < (vote_weights (voted_stages v)).1 + (vote_weights (voted_stages v)).2.1
            + (vote_weights (voted_stages v)).2.2
        ∧ 3/4 ≤ (vote_weights (voted_stages v)).2.1
            / ((vote_weights (voted_stages v)).1 + (vote_weights (voted_stages v)).2.1
              + (vote_weights (voted_stages v)).2.2))
    ∧ (combine_final_status (3/4) (voted_stages v) = "requires_review"
      ↔ ¬(0 < (vote_weights (voted_stages v)).1 + (vote_weights (voted_stages v)).2.1
            + (vote_weights (voted_stages v)).2.2
          ∧ 3/4 ≤ (vote_weights (voted_stages v)).1
            / ((vote_weights (voted_stages v)).1 + (vote_weights (voted_stages v)).2.1
              + (vote_weights (voted_stages v)).2.2))
        ∧ ¬(0 < (vote_weights (voted_stages v)).1 + (vote_weights (voted_stages v)).2.1
            + (vote_weights (voted_stages v)).2.2
          ∧ 3/4 ≤ (vote_weights (voted_stages v)).2.1
            / ((vote_weights (voted_stages v)).1 + (vote_weights (voted_stages v)).2.1
              + (vote_weights (voted_stages v)).2.2)))
    ∧ (vote_weights (voted_stages votesExampleA)).1 = 8/10
    ∧ combine_final_status (3/4) (voted_stages votesExampleA) = "approved"
    ∧ (vote_weights (voted_stages votesExampleB)).1 = 6/10
    ∧ combine_final_status (3/4) (voted_stages votesExampleB)
        = "requires_review" := by
  have hwts : ∀ s ∈ voted_stages v, 0 ≤ s.weight := by
    intro s hs
    simp only [voted_stages, pipeline_stages, pipeline_stages_on, finRange_four,
      List.map_cons, List.map_nil, List.mem_cons, List.not_mem_nil, or_false] at hs
    rcases hs with h | h | h | h
    all_goals subst h
    all_goals norm_num [execute_stage, default_stage_weight]
  have hnn := vote_weights_nonneg (voted_stages v) hwts
  have hchar := final_status_characterization (3/4)
    (vote_weights (voted_stages v)) hnn.1 hnn.2.1 hnn.2.2 (by norm_num)
  have htallyA : vote_weights (voted_stages votesExampleA)
      = (0 + 3/10 + 3/10 + 2/10, 0, 0 + 2/10) := rfl
  have htallyB : vote_weights (voted_stages votesExampleB)
      = (0 + 3/10 + 3/10, 0, 0 + 2/10 + 2/10) := rfl
  refine ⟨hchar.1, hchar.2.1, hchar.2.2, ?_, ?_, ?_, ?_⟩
  · rw [htallyA]
    norm_num
  · simp only [combine_final_status]
    rw [htallyA]
    norm_num [final_status_of_tally]
  · rw [htallyB]
    norm_num
  · simp only [combine_final_status]
    rw [htallyB]
    norm_num [final_status_of_tally]

/-- Label dictionary entity_labels of _extract_entities; ids outside the
table map to "O" via dict.get(label_id, "O"). -/
def entity_labels : List (ℕ × String) :=
  [(0, "O"), (1, "B-DISEASE"), (2, "I-DISEASE"), (3, "B-SYMPTOM"),
   (4, "I-SYMPTOM"), (5, "B-MEDICATION"), (6, "I-MEDICATION"),
   (7, "B-PROCEDURE"), (8, "I-PROCEDURE"), (9, "B-ANATOMY"),
   (10, "I-ANATOMY"), (11, "B-TEST"), (12, "I-TEST"), (13, "B-DOSAGE"),
   (14, "I-DOSAGE")]

/-- Lookup of the label for a predicted id. -/
def label_of_id (label_id : ℕ) : String :=
  (entity_labels.lookup label_id).getD "O"

/-- Python str.startswith, modelled on the character lists. -/
def str_startswith (s pre : String) : Bool :=
  pre.toList.isPrefixOf s.toList

/-- Python label[2:], modelled on the character list. -/
def str_drop2 (s : String) : String :=
  String.mk (s.toList.drop 2)

/-- Greedy left-to-right removal of the wordpiece separator sequence
space-hash-hash, as performed by .replace(" ##", ""). -/
def remove_wordpiece_marks : List Char → List Char
  | ' ' :: '#' :: '#' :: rest => remove_wordpiece_marks rest
  | c :: rest => c :: remove_wordpiece_marks rest
  | [] => []

/-- Entity text construction " ".join(tokens).replace(" ##", ""). -/
def join_with_spaces : List String → List Char
  | [] => []
  | [t] => t.toList
  | t :: rest => t.toList ++ ' ' :: join_with_spaces rest

/-- Full entity text of the accumulated tokens. -/
def join_entity_text (tokens : List String) : String :=
  String.mk (remove_wordpiece_marks (join_with_spaces tokens))

/-- Loop state of _extract_entities: the currently open entity type, its
accumulated tokens and the emitted entities so far. -/
structure ExtractState where
  current_entity : Option String
  current_tokens : List String
  entities : List Entity

/-- One iteration of the _extract_entities loop over a (token, label id)
pair: a B- label flushes any open entity and opens a new one; an I- label
matching the open entity extends it; anything else flushes and closes. -/
def extract_step (st : ExtractState) (tok : String × ℕ) : ExtractState :=
  let label := label_of_id tok.2
  if str_startswith label "B-" then
    let entities' :=
      match st.current_entity with
      | some ty => st.entities
          ++ [{ type := ty, text := join_entity_text st.current_tokens,
                confidence := 9/10 }]
      | none => st.entities
    { current_entity := some (str_drop2 label), current_tokens := [tok.1],
      entities := entities' }
  else if str_startswith label "I-"
      && (st.current_entity == some (str_drop2 label)) then
    { st with current_tokens := st.current_tokens ++ [tok.1] }
  else
    match st.current_entity with
    | some ty =>
        { current_entity := none, current_tokens := [],
          entities := st.entities
            ++ [{ type := ty, text := join_entity_text st.current_tokens,
                  confidence := 9/10 }] }
    | none =>
        { current_entity := none, current_tokens := [],
          entities := st.entities }

/-- BERTMedicalModel._extract_entities: fold the loop over the token/label
sequence and return only the emitted entities — the final state's still-open
entity is discarded. -/
def extract_entities (tokens : List (String × ℕ)) : List Entity :=
  (tokens.foldl extract_step
    { current_entity := none, current_tokens := [], entities := [] }).entities

/-- C10: an entity run still open when the token sequence ends is silently
dropped: the returned list is exactly the emitted-entity component of the
final loop state, and appending one O-labelled token would emit exactly the
open trailing entity — so that entity is absent from the original result. -/
theorem c10_open_trailing_entity_dropped (tokens : List (String × ℕ))
    (ty : String)
    (hopen : (tokens.foldl extract_step
        { current_entity := none, current_tokens := [], entities := [] }
      ).current_entity = some ty) :
    extract_entities tokens
      = (tokens.foldl extract_step
          { current_entity := none, current_tokens := [], entities := [] }
        ).entities
    ∧ extract_entities (tokens ++ [("x", 0)])
      = extract_entities tokens
        ++ [{ type := ty,
              text := join_entity_text (tokens.foldl extract_step
                { current_entity := none, current_tokens := [], entities := [] }
              ).current_tokens,
              confidence := 9/10 }] := by
  refine ⟨rfl, ?_⟩
  unfold extract_entities
  rw [List.foldl_append]
  have hB : str_startswith (label_of_id 0) "B-" = false := rfl
  have hI : str_startswith (label_of_id 0) "I-" = false := rfl
  simp only [List.foldl_cons, List.foldl_nil]
  simp only [extract_step, hB, hI, Bool.false_and, Bool.false_eq_true,
    if_false, hopen]

/-- Closed-form instance discharging the open-entity hypothesis of
c10_open_trailing_entity_dropped: a single trailing B-DISEASE token yields
no entity at all, and appending an O token emits exactly that entity. -/
theorem c10_open_trailing_entity_witness :
    (([("foo", 1)] : List (String × ℕ)).foldl extract_step
        { current_entity := none, current_tokens := [], entities := [] }
      ).current_entity = some "DISEASE"
    ∧ extract_entities [("foo", 1)] = []
    ∧ extract_entities ([("foo", 1)] ++ [("x", 0)])
      = extract_entities [("foo", 1)]
        ++ [{ type := "DISEASE",
              text := join_entity_text (([("foo", 1)] : List (String × ℕ)).foldl
                extract_step
                { current_entity := none, current_tokens := [], entities := [] }
              ).current_tokens,
              confidence := 9/10 }] := by
  refine ⟨rfl, rfl, ?_⟩
  exact (c10_open_trailing_entity_dropped [("foo", 1)] "DISEASE" rfl).2

end QualityControl
